import Mathlib

/-!
Verification development for the BankSync repository.

The repository contains three near-duplicate pipeline scripts:
  * `createGristRecords.py`  (modelled in namespace `CGR`)
  * `gristbankupdater.py`    (modelled in namespace `GBU`)
  * `uploadToGrist.py`       (modelled in namespace `UTG`)

Each script carries its own copies of the field normalizers
(`_parse_date_string`, `normalize_date`, `normalize_amount`), the
duplicate detector (`_record_matches`), the sync-cursor resolver
(`get_last_processed_datetime_and_records`), the record mapper
(`prepare_grist_record`), the classifier (`should_process_record`)
and the archiving helpers.  The definitions below are shallow
embeddings of those functions, translated branch by branch from the
Python source.  Machine-level details that the claims do not touch
(logging, HTTP transport, exception traces) are dropped; every data
decision (branch conditions, fallback order, comparison semantics)
is kept.
-/

/-- A timezone-naive instant, the shallow embedding of a Python
`datetime.datetime` value (sub-second precision is never produced by
the code under study, so it is omitted). -/
structure DT where
  year : Nat
  month : Nat
  day : Nat
  hour : Nat
  minute : Nat
  second : Nat
deriving DecidableEq, Repr

/-- Python `datetime < datetime`: lexicographic comparison of the
components. -/
def DT.ltb (a b : DT) : Bool :=
  if a.year ≠ b.year then decide (a.year < b.year)
  else if a.month ≠ b.month then decide (a.month < b.month)
  else if a.day ≠ b.day then decide (a.day < b.day)
  else if a.hour ≠ b.hour then decide (a.hour < b.hour)
  else if a.minute ≠ b.minute then decide (a.minute < b.minute)
  else decide (a.second < b.second)

theorem DT.ltb_irrefl (a : DT) : DT.ltb a a = false := by
  simp [DT.ltb]

theorem DT.ltb_asymm {a b : DT} (h : DT.ltb a b = true) : DT.ltb b a = false := by
  unfold DT.ltb at h ⊢
  split_ifs at h ⊢ <;> simp_all <;> omega

theorem DT.eq_of_not_ltb {a b : DT} (h1 : DT.ltb a b = false)
    (h2 : DT.ltb b a = false) : a = b := by
  unfold DT.ltb at h1 h2
  cases a; cases b
  split_ifs at h1 h2 <;> simp_all <;> omega

/-- Shallow embedding of the Python values the scripts move around:
`None`, `str`, `int`, `float` (modelled exactly by a rational; the
amounts and comparisons exercised here stay well inside the range
where IEEE doubles are exact) and `datetime`. -/
inductive PyVal where
  | vNone
  | vStr (s : String)
  | vInt (n : Int)
  | vFloat (q : Rat)
  | vDt (d : DT)
deriving DecidableEq, Repr

/-- Python truthiness for the values above (`bool(x)`). -/
def PyVal.truthy : PyVal → Bool
  | .vNone => false
  | .vStr s => !s.data.isEmpty
  | .vInt n => decide (n ≠ 0)
  | .vFloat q => decide (q ≠ 0)
  | .vDt _ => true

/-- Python `==` between the values above: numbers compare by value
across `int`/`float`, everything else structurally. -/
def pyEq (a b : PyVal) : Bool :=
  match a, b with
  | .vInt n, .vFloat q => decide ((n : Rat) = q)
  | .vFloat q, .vInt n => decide (q = (n : Rat))
  | x, y => decide (x = y)

/-- A record (Python `dict` of field name to value), kept as an
association list in insertion order. -/
abbrev Rec := List (String × PyVal)

/-- `d.get(k)` with default `None`. -/
def recGet (r : Rec) (k : String) : PyVal :=
  match r.find? (fun p => p.1 == k) with
  | some p => p.2
  | none => .vNone

/-- The digit character for `n` (meaningful for `n ≤ 9`). -/
def dchar (n : Nat) : Char := Char.ofNat (48 + n)

/-- Numeric value of a digit character. -/
def dv (c : Char) : Nat := c.toNat - 48

/-- Decimal value of a digit string (Python `int(s)` on a string of
digits; the scripts only reach this after an `isdigit` check, so no
sign handling is needed). -/
def decVal (l : List Char) : Nat := l.foldl (fun a c => a * 10 + dv c) 0

/-- Python `str.strip()` on the character list (the inputs at issue
only ever carry ASCII whitespace). -/
def pyStripList (l : List Char) : List Char :=
  ((l.dropWhile Char.isWhitespace).reverse.dropWhile Char.isWhitespace).reverse

def pyStrip (s : String) : String := ⟨pyStripList s.data⟩

/-- Python `str.isdigit()`: non-empty and every character a digit
(the strings at issue are ASCII). -/
def isdigitStr (s : String) : Bool := !s.data.isEmpty && s.data.all Char.isDigit

/-- Python substring test `sub in l`. -/
def containsSub (l sub : List Char) : Bool :=
  match l with
  | [] => sub.isEmpty
  | _ :: t => sub.isPrefixOf l || containsSub t sub

def strContains (s sub : String) : Bool := containsSub s.data sub.data

/-- Python `str.replace(pat, rep)`: left-to-right, non-overlapping.
(The scripts only call it with non-empty patterns.) -/
def replaceSub (pat rep : List Char) : List Char → List Char
  | [] => []
  | c :: t =>
    if pat ≠ [] ∧ pat.isPrefixOf (c :: t) then
      rep ++ replaceSub pat rep (t.drop (pat.length - 1))
    else
      c :: replaceSub pat rep t
termination_by l => l.length
decreasing_by
  all_goals simp only [List.length_drop, List.length_cons]
  all_goals omega

def strReplace (s pat rep : String) : String :=
  ⟨replaceSub pat.data rep.data s.data⟩

/-- Python `str.lower()` (ASCII). -/
def lowerStr (s : String) : String := ⟨s.data.map Char.toLower⟩

/-- Python `str.upper()` (ASCII). -/
def upperStr (s : String) : String := ⟨s.data.map Char.toUpper⟩

/-! ## `datetime.strptime` for the format directives the scripts use

CPython's `_strptime` compiles each directive to a regular expression
and backtracks across the alternatives.  For the directives appearing
in the three scripts the regexes are:

  %m : 1[0-2]|0[1-9]|[1-9]        %d : 3[01]|[12]d|0[1-9]|[1-9]
  %H : 2[0-3]|[0-1]d|d            %I : 1[0-2]|0[1-9]|[1-9]
  %M : [0-5]d|d                   %S : 6[0-1]|[0-5]d|d
  %Y : dddd                       %y : dd
  %p : AM|PM (case-insensitive)

Each two-digit alternative group is exactly "two digit characters
whose value lies in a contiguous range" (plus, for %m/%d/%I, the
exclusion of 00, handled by the range lower bound), so the matchers
below state them that way; the one-digit fallbacks likewise.  The
whole pattern must consume the entire string, matching
`ValueError: unconverted data remains`. -/

/-- Two digit characters whose decimal value lies in `[lo, hi]`. -/
def alt2 (lo hi : Nat) : List Char → Option (Nat × List Char)
  | c1 :: c2 :: r =>
    if c1.isDigit && c2.isDigit && decide (lo ≤ 10 * dv c1 + dv c2)
        && decide (10 * dv c1 + dv c2 ≤ hi) then
      some (10 * dv c1 + dv c2, r)
    else none
  | _ => none

/-- One digit character whose value lies in `[lo, hi]`. -/
def alt1 (lo hi : Nat) : List Char → Option (Nat × List Char)
  | c :: r =>
    if c.isDigit && decide (lo ≤ dv c) && decide (dv c ≤ hi) then
      some (dv c, r)
    else none
  | _ => none

/-- Exactly four digit characters (the %Y directive). -/
def alt4 : List Char → Option (Nat × List Char)
  | c1 :: c2 :: c3 :: c4 :: r =>
    if c1.isDigit && c2.isDigit && c3.isDigit && c4.isDigit then
      some (((dv c1 * 10 + dv c2) * 10 + dv c3) * 10 + dv c4, r)
    else none
  | _ => none

/-- The candidate (value, rest) list for a numeric directive, in the
priority order of the CPython regex alternatives. -/
def numAlts : List (Option (Nat × List Char)) → List (Nat × List Char)
  | [] => []
  | some p :: t => p :: numAlts t
  | none :: t => numAlts t

/-- %p: `AM`/`PM`, case-insensitively (the compiled regex carries
IGNORECASE).  Returns `true` for PM. -/
def pAlts : List Char → List (Bool × List Char)
  | c1 :: c2 :: r =>
    if (c1 = 'A' ∨ c1 = 'a') ∧ (c2 = 'M' ∨ c2 = 'm') then [(false, r)]
    else if (c1 = 'P' ∨ c1 = 'p') ∧ (c2 = 'M' ∨ c2 = 'm') then [(true, r)]
    else []
  | _ => []

/-- Format directives (tokens) occurring in the scripts' format
strings. -/
inductive FTok where
  | lit (c : Char)
  | fY | fy | fm | fd | fH | fI | fMin | fS | fp
deriving DecidableEq, Repr

/-- The fields recovered while matching one format. -/
structure PD where
  y : Option Nat := none
  mo : Option Nat := none
  d : Option Nat := none
  h : Option Nat := none
  i : Option Nat := none
  mi : Option Nat := none
  s : Option Nat := none
  pm : Option Bool := none
deriving Repr

/-- Translate a strftime-style format string into tokens (`%x`
directives become field tokens, everything else literals; only the
directives above occur in the scripts). -/
def fmtToks : List Char → List FTok
  | [] => []
  | '%' :: c :: r =>
    (if c = 'Y' then FTok.fY
     else if c = 'y' then FTok.fy
     else if c = 'm' then FTok.fm
     else if c = 'd' then FTok.fd
     else if c = 'H' then FTok.fH
     else if c = 'I' then FTok.fI
     else if c = 'M' then FTok.fMin
     else if c = 'S' then FTok.fS
     else if c = 'p' then FTok.fp
     else FTok.lit c) :: fmtToks r
  | c :: r => FTok.lit c :: fmtToks r

/-- The `%y` two-digit-year rule of `strptime` is irrelevant here:
the only `%y` format is tried by `uploadToGrist` and never with a
claim's inputs; CPython maps 0-68 to 2000-2068 and 69-99 to
1969-1999.  `mkDT` receives the mapped year. -/
def mapY2 (n : Nat) : Nat := if n ≤ 68 then 2000 + n else 1900 + n

/-- The backtracking matcher: try the directives in order against the
characters; numeric directives try their regex alternatives in
priority order and backtrack through the continuation, exactly as the
compiled regex does. -/
def runToks : List FTok → List Char → PD → Option PD
  | [], l, acc => if l.isEmpty then some acc else none
  | .lit c :: ts, l, acc =>
    match l with
    | c2 :: r => if c2 = c then runToks ts r acc else none
    | [] => none
  | .fY :: ts, l, acc =>
    (numAlts [alt4 l]).findSome? (fun vr => runToks ts vr.2 { acc with y := some vr.1 })
  | .fy :: ts, l, acc =>
    (numAlts [alt2 0 99 l]).findSome? (fun vr =>
      runToks ts vr.2 { acc with y := some (mapY2 vr.1) })
  | .fm :: ts, l, acc =>
    (numAlts [alt2 1 12 l, alt1 1 9 l]).findSome?
      (fun vr => runToks ts vr.2 { acc with mo := some vr.1 })
  | .fd :: ts, l, acc =>
    (numAlts [alt2 1 31 l, alt1 1 9 l]).findSome?
      (fun vr => runToks ts vr.2 { acc with d := some vr.1 })
  | .fH :: ts, l, acc =>
    (numAlts [alt2 0 23 l, alt1 0 9 l]).findSome?
      (fun vr => runToks ts vr.2 { acc with h := some vr.1 })
  | .fI :: ts, l, acc =>
    (numAlts [alt2 1 12 l, alt1 1 9 l]).findSome?
      (fun vr => runToks ts vr.2 { acc with i := some vr.1 })
  | .fMin :: ts, l, acc =>
    (numAlts [alt2 0 59 l, alt1 0 9 l]).findSome?
      (fun vr => runToks ts vr.2 { acc with mi := some vr.1 })
  | .fS :: ts, l, acc =>
    (numAlts [alt2 0 61 l, alt1 0 9 l]).findSome?
      (fun vr => runToks ts vr.2 { acc with s := some vr.1 })
  | .fp :: ts, l, acc =>
    (pAlts l).findSome? (fun vr => runToks ts vr.2 { acc with pm := some vr.1 })

/-- Days in a month of the (proleptic) Gregorian calendar. -/
def daysInMonth (y m : Nat) : Nat :=
  if m = 2 then
    if y % 4 = 0 ∧ (y % 100 ≠ 0 ∨ y % 400 = 0) then 29 else 28
  else if m = 4 ∨ m = 6 ∨ m = 9 ∨ m = 11 then 30
  else 31

/-- Assemble the `datetime` from the matched fields, with CPython's
defaults (1900-01-01 00:00:00), the %I/%p hour rule, and the
validation the `datetime` constructor performs (year ≥ 1, day within
the month, second ≤ 59). -/
def mkDT (p : PD) : Option DT :=
  let y := p.y.getD 1900
  let mo := p.mo.getD 1
  let d := p.d.getD 1
  let h : Nat :=
    match p.i with
    | some i =>
      match p.pm with
      | some true => if i = 12 then 12 else i + 12
      | some false => if i = 12 then 0 else i
      | none => i
    | none => p.h.getD 0
  let mi := p.mi.getD 0
  let s := p.s.getD 0
  if 1 ≤ y ∧ d ≤ daysInMonth y mo ∧ h ≤ 23 ∧ s ≤ 59 then
    some ⟨y, mo, d, h, mi, s⟩
  else none

/-- `datetime.strptime(s, fmt)`. -/
def strptime (s : String) (fmt : String) : Option DT :=
  match runToks (fmtToks fmt.data) s.data {} with
  | some p => mkDT p
  | none => none

/-- `datetime.fromtimestamp(ts)` for `ts ≥ 0`, via the standard
civil-from-days conversion.  CPython converts to the host's local
time zone; the claims never reach this branch with a concrete value,
and its embedding fixes the UTC reading of the instant. -/
def epochToDT (ts : Nat) : DT :=
  let days := ts / 86400
  let rem := ts % 86400
  let z := days + 719468
  let era := z / 146097
  let doe := z % 146097
  let yoe := (doe - doe / 1460 + doe / 36524 - doe / 146096) / 365
  let y0 := yoe + era * 400
  let doy := doe - (365 * yoe + yoe / 4 - yoe / 100)
  let mp := (5 * doy + 2) / 153
  let d := doy - (153 * mp + 2) / 5 + 1
  let m := if mp < 10 then mp + 3 else mp - 9
  let y := if m ≤ 2 then y0 + 1 else y0
  ⟨y, m, d, rem / 3600, rem % 3600 / 60, rem % 60⟩


/-! ## Zero-padded strftime output pieces -/

def pad2c (n : Nat) : List Char := [dchar (n / 10), dchar (n % 10)]

def pad4c (n : Nat) : List Char :=
  [dchar (n / 1000), dchar (n / 100 % 10), dchar (n / 10 % 10), dchar (n % 10)]

/-- `strftime("%m/%d/%Y %H:%M:%S")`. -/
def fmtMDYHMSChars (t : DT) : List Char :=
  pad2c t.month ++ '/' :: (pad2c t.day ++ '/' :: (pad4c t.year ++
    ' ' :: (pad2c t.hour ++ ':' :: (pad2c t.minute ++ ':' :: pad2c t.second))))

/-- `strftime("%Y-%m-%d %H:%M:%S")`. -/
def fmtYMDHMSChars (t : DT) : List Char :=
  pad4c t.year ++ '-' :: (pad2c t.month ++ '-' :: (pad2c t.day ++
    ' ' :: (pad2c t.hour ++ ':' :: (pad2c t.minute ++ ':' :: pad2c t.second))))

/-- `strftime("%Y-%m-%d")`. -/
def fmtYMDChars (t : DT) : List Char :=
  pad4c t.year ++ '-' :: (pad2c t.month ++ '-' :: pad2c t.day)

/-- `str()` of a value (only the string/int cases are ever reached by
the claims; the float and datetime renderings abstract CPython's
`repr`). -/
def pyStr : PyVal → String
  | .vNone => "None"
  | .vStr s => s
  | .vInt n => toString n
  | .vFloat q => toString q
  | .vDt d => ⟨fmtYMDHMSChars d⟩

/-! ## The bank hint

Each parser decides ICICI-ness by `bank_name and bank_name.upper() ==
'ICICI'`.  A falsy bank (None, "", 0) short-circuits to the non-ICICI
branch; a truthy non-string raises `AttributeError` at `.upper()`,
which every caller's `try/except` converts to a `None` result. -/

inductive BankCheck where
  | icici | other | raises
deriving DecidableEq, Repr

def bankCheck : PyVal → BankCheck
  | .vNone => .other
  | .vStr s =>
    if !s.data.isEmpty && upperStr s == "ICICI" then .icici else .other
  | .vInt n => if n = 0 then .other else .raises
  | .vFloat q => if q = 0 then .other else .raises
  | .vDt _ => .raises

/-- `_parse_unix_timestamp` (createGristRecords / uploadToGrist):
accept only `0 ≤ ts ≤ 4102444800` (≈ year 2100). -/
def parseUnixTs (n : Int) : Option DT :=
  if 0 ≤ n ∧ n ≤ 4102444800 then some (epochToDT n.toNat) else none

/-- Python `int(float)` truncates toward zero. -/
def ratTrunc (q : Rat) : Int := if 0 ≤ q then ⌊q⌋ else ⌈q⌉

/-! ## Format lists, verbatim from each script -/

def yyyyFormats : List String := ["%Y-%m-%d %H:%M:%S", "%Y-%m-%d"]

def CGR.mmFormats : List String :=
  ["%m-%d-%Y %I:%M:%S %p", "%m-%d-%Y %H:%M:%S", "%m-%d-%Y",
   "%m/%d/%Y %H:%M:%S", "%m/%d/%Y %I:%M:%S %p", "%m/%d/%Y"]

def CGR.ddFormats : List String :=
  ["%d-%m-%Y %H:%M:%S", "%d/%m/%Y %H:%M:%S",
   "%d-%m-%Y %I:%M:%S %p", "%d-%m-%Y %I:%M %p",
   "%d-%m-%Y", "%d/%m/%Y"]

def UTG.mmFormats : List String :=
  ["%m-%d-%Y %I:%M:%S %p", "%m-%d-%Y %H:%M:%S", "%m-%d-%Y",
   "%m/%d/%Y %H:%M:%S", "%m/%d/%Y %I:%M:%S %p", "%m/%d/%Y"]

def UTG.ddFormats : List String :=
  ["%d-%m-%Y %H:%M:%S", "%d/%m/%Y %H:%M:%S",
   "%d-%m-%Y %I:%M:%S %p", "%d-%m-%Y %I:%M %p",
   "%d-%m-%Y", "%d/%m/%Y",
   "%d/%m/%y"]

def GBU.mmFormats : List String :=
  ["%m-%d-%Y %I:%M:%S %p", "%m-%d-%Y %H:%M:%S", "%m-%d-%Y",
   "%m/%d/%Y %H:%M:%S", "%m/%d/%Y"]

def GBU.ddFormats : List String :=
  ["%d-%m-%Y %H:%M:%S", "%d/%m/%Y %H:%M:%S",
   "%d-%m-%Y %I:%M:%S %p", "%d-%m-%Y %I:%M%p",
   "%d-%m-%Y"]

/-- AM/PM pre-normalization of createGristRecords / uploadToGrist:
guarded by a case-insensitive containment test, replacing only the
lowercase spellings (the second `.replace('AM','AM')` in the source
is the identity). -/
def amPmNormLower (s : String) : String :=
  let s1 := if strContains (lowerStr s) "am" then strReplace s "am" "AM" else s
  if strContains (lowerStr s1) "pm" then strReplace s1 "pm" "PM" else s1

/-- AM/PM pre-normalization of gristbankupdater: case-sensitive
containment test. -/
def amPmNormPlain (s : String) : String :=
  let s1 := if strContains s "am" then strReplace s "am" "AM" else s
  if strContains s1 "pm" then strReplace s1 "pm" "PM" else s1

/-- `_parse_date_string` of createGristRecords.py (lines 126-190). -/
def CGR.parse_date_string (ds : String) (bank : PyVal) : Option DT :=
  if ds.data.isEmpty then none
  else
    let cleaned := pyStrip ds
    if isdigitStr cleaned then parseUnixTs (decVal cleaned.data)
    else
      let c2 := amPmNormLower cleaned
      match bankCheck bank with
      | .raises => none
      | bc =>
        let prio :=
          if bc = .icici then CGR.mmFormats ++ CGR.ddFormats
          else CGR.ddFormats ++ CGR.mmFormats
        match prio.findSome? (fun f => strptime c2 f) with
        | some dt => some dt
        | none => yyyyFormats.findSome? (fun f => strptime c2 f)

/-- `_parse_date_string` of uploadToGrist.py (lines 91-145): same
shape with the extra day-first format `%d/%m/%y`. -/
def UTG.parse_date_string (ds : String) (bank : PyVal) : Option DT :=
  if ds.data.isEmpty then none
  else
    let cleaned := pyStrip ds
    if isdigitStr cleaned then parseUnixTs (decVal cleaned.data)
    else
      let c2 := amPmNormLower cleaned
      match bankCheck bank with
      | .raises => none
      | bc =>
        let prio :=
          if bc = .icici then UTG.mmFormats ++ UTG.ddFormats
          else UTG.ddFormats ++ UTG.mmFormats
        match prio.findSome? (fun f => strptime c2 f) with
        | some dt => some dt
        | none => yyyyFormats.findSome? (fun f => strptime c2 f)

/-- `_parse_date_string` of gristbankupdater.py (lines 181-324): the
inline timestamp branch falls through to string parsing when the
number is out of range; the non-ICICI path first tries the single
format `%d/%m/%Y %H:%M:%S`, then its day-first list, then the
month-first list; its day-first list has no date-only slashed
format. -/
def GBU.parse_date_string (ds : String) (bank : PyVal) : Option DT :=
  if ds.data.isEmpty then none
  else
    let cleaned := pyStrip ds
    let viaTs : Option DT :=
      if isdigitStr cleaned && decide (decVal cleaned.data ≤ 4102444800) then
        some (epochToDT (decVal cleaned.data))
      else none
    match viaTs with
    | some dt => some dt
    | none =>
      let c2 := amPmNormPlain cleaned
      match bankCheck bank with
      | .raises => none
      | .icici =>
        match GBU.mmFormats.findSome? (fun f => strptime c2 f) with
        | some dt => some dt
        | none =>
          match GBU.ddFormats.findSome? (fun f => strptime c2 f) with
          | some dt => some dt
          | none => yyyyFormats.findSome? (fun f => strptime c2 f)
      | .other =>
        match strptime c2 "%d/%m/%Y %H:%M:%S" with
        | some dt => some dt
        | none =>
          match GBU.ddFormats.findSome? (fun f => strptime c2 f) with
          | some dt => some dt
          | none =>
            match GBU.mmFormats.findSome? (fun f => strptime c2 f) with
            | some dt => some dt
            | none => yyyyFormats.findSome? (fun f => strptime c2 f)

/-- `normalize_date` of createGristRecords.py (lines 192-212):
datetime passes through, numbers go through the Unix-timestamp path
after `int()` truncation, strings are parsed. -/
def CGR.normalize_date (v : PyVal) (bank : PyVal) : Option DT :=
  if !v.truthy then none
  else
    match v with
    | .vDt d => some d
    | .vInt n => parseUnixTs n
    | .vFloat q => parseUnixTs (ratTrunc q)
    | .vStr s => CGR.parse_date_string s bank
    | .vNone => none

/-- `normalize_date` of uploadToGrist.py (lines 147-172): same shape
as createGristRecords but over its own `_parse_date_string`. -/
def UTG.normalize_date (v : PyVal) (bank : PyVal) : Option DT :=
  if !v.truthy then none
  else
    match v with
    | .vDt d => some d
    | .vInt n => parseUnixTs n
    | .vFloat q => parseUnixTs (ratTrunc q)
    | .vStr s => UTG.parse_date_string s bank
    | .vNone => none

/-- `normalize_date` of gristbankupdater.py (lines 326-357): only
datetime and string inputs produce a value (a numeric input leaves
`dt = None` and the function returns `None`). -/
def GBU.normalize_date (v : PyVal) (bank : PyVal) : Option DT :=
  if !v.truthy then none
  else
    match v with
    | .vDt d => some d
    | .vStr s => GBU.parse_date_string s bank
    | _ => none

/-! ## Amount / integer normalization -/

/-- Decimal part of Python `float(str)`: digits with an optional
point, at least one digit present (the pipeline's amount fields never
use exponent or inf/nan spellings). -/
def parseDecimal (l : List Char) : Option Rat :=
  let ip := l.takeWhile Char.isDigit
  match l.drop ip.length with
  | [] => if ip.isEmpty then none else some ((decVal ip : Nat) : Rat)
  | '.' :: fp =>
    if fp.all Char.isDigit && !(ip.isEmpty && fp.isEmpty) then
      some (((decVal ip : Nat) : Rat) + ((decVal fp : Nat) : Rat) / ((10 : Rat) ^ fp.length))
    else none
  | _ => none

/-- Python `float(str)`: surrounding whitespace and an optional
sign around a decimal literal. -/
def pyFloatOfString (s : String) : Option Rat :=
  match (pyStrip s).data with
  | '-' :: t => (parseDecimal t).map (fun q => -q)
  | '+' :: t => parseDecimal t
  | t => parseDecimal t

/-- Python `int(str)`: surrounding whitespace, optional sign, digits
only. -/
def pyIntOfString (s : String) : Option Int :=
  match (pyStrip s).data with
  | '-' :: t => if !t.isEmpty && t.all Char.isDigit then some (-(decVal t : Int)) else none
  | '+' :: t => if !t.isEmpty && t.all Char.isDigit then some (decVal t : Int) else none
  | t => if !t.isEmpty && t.all Char.isDigit then some (decVal t : Int) else none

/-- `normalize_amount`, textually identical in the three scripts
(createGristRecords 214-230, gristbankupdater 359-376, uploadToGrist
174-190): falsy input is `None`; strings are stripped of `$`, `,`,
`₹` and whitespace then parsed as a float; other values go through
`float()`, with failures (e.g. a datetime) logged and mapped to
`None`. -/
def normalize_amount (v : PyVal) : Option Rat :=
  if !v.truthy then none
  else
    match v with
    | .vStr s =>
      let t := pyStrip ⟨s.data.filter (fun c => c ≠ '$' ∧ c ≠ ',' ∧ c ≠ '₹')⟩
      if t.data.isEmpty then none else pyFloatOfString t
    | .vInt n => some ((n : Int) : Rat)
    | .vFloat q => some q
    | .vDt _ => none
    | .vNone => none

/-- `normalize_integer` of uploadToGrist.py (lines 192-208). -/
def normalize_integer (v : PyVal) : Option Int :=
  if !v.truthy then none
  else
    match v with
    | .vStr s =>
      let t := pyStrip s
      if t.data.isEmpty then none else pyIntOfString t
    | .vInt n => some n
    | .vFloat q => some (ratTrunc q)
    | .vDt _ => none
    | .vNone => none

/-! ## Duplicate detector `_record_matches` -/

/-- `_record_matches` of gristbankupdater.py (lines 157-179): the
destination record's `Transaction_Date` is normalized **with the
source record's Bank hint**. -/
def GBU.record_matches (f g : Rec) : Bool :=
  let bank := recGet f "Bank"
  let fileDate := GBU.normalize_date (recGet f "Transaction Date") bank
  let fileDesc := recGet f "Transaction Description"
  let fileAmount := normalize_amount (recGet f "Transaction Amount")
  let gristDate := GBU.normalize_date (recGet g "Transaction_Date") bank
  let gristDesc := recGet g "Transaction_Description"
  let gristAmount := normalize_amount (recGet g "Transaction_Amount")
  if fileDate.isNone || fileDesc == PyVal.vNone || fileAmount.isNone ||
      gristDate.isNone || gristDesc == PyVal.vNone || gristAmount.isNone then
    false
  else
    fileDate == gristDate && pyEq fileDesc gristDesc && fileAmount == gristAmount

/-- `_record_matches` of createGristRecords.py (lines 232-255): the
destination record's `Transaction_Date` is normalized with **no**
bank hint. -/
def CGR.record_matches (f g : Rec) : Bool :=
  let bank := recGet f "Bank"
  let fileDate := CGR.normalize_date (recGet f "Transaction Date") bank
  let fileDesc := recGet f "Transaction Description"
  let fileAmount := normalize_amount (recGet f "Transaction Amount")
  let gristDate := CGR.normalize_date (recGet g "Transaction_Date") PyVal.vNone
  let gristDesc := recGet g "Transaction_Description"
  let gristAmount := normalize_amount (recGet g "Transaction_Amount")
  if fileDate.isNone || fileDesc == PyVal.vNone || fileAmount.isNone ||
      gristDate.isNone || gristDesc == PyVal.vNone || gristAmount.isNone then
    false
  else
    fileDate == gristDate && pyEq fileDesc gristDesc && fileAmount == gristAmount

/-! ## Classifier `should_process_record`

Identical branch structure in createGristRecords (328-368) and
gristbankupdater (592-642); each calls its own `_record_matches`.
Datetime comparisons between `datetime` objects never raise, so the
`except` fallback (`return True`) is unreachable for the modelled
inputs; the trailing `return True` default is kept. -/

def CGR.should_process_record (f : Rec) (fileDt lastDt : Option DT)
    (ties : List Rec) : Bool :=
  match fileDt with
  | none => false
  | some fd =>
    match lastDt with
    | none => true
    | some ld =>
      if DT.ltb ld fd then true
      else if DT.ltb fd ld then false
      else if fd == ld then !(ties.any (fun g => CGR.record_matches f g))
      else true

def GBU.should_process_record (f : Rec) (fileDt lastDt : Option DT)
    (ties : List Rec) : Bool :=
  match fileDt with
  | none => false
  | some fd =>
    match lastDt with
    | none => true
    | some ld =>
      if DT.ltb ld fd then true
      else if DT.ltb fd ld then false
      else if fd == ld then !(ties.any (fun g => GBU.record_matches f g))
      else true

/-! ## Sync-cursor resolver `get_last_processed_datetime_and_records` -/

/-- The destination-side date normalization used by the
createGristRecords resolver (`self.normalize_date(raw, None)`). -/
def CGR.normDateField (g : Rec) : Option DT :=
  CGR.normalize_date (recGet g "Transaction_Date") PyVal.vNone

/-- The tie-collection loop of createGristRecords (lines 305-315):
append while the **normalized** date equals the head's, break at the
first strictly smaller one, skip unparseable ones. -/
def CGR.collectTies : List Rec → DT → List Rec
  | [], _ => []
  | g :: gs, latest =>
    match CGR.normDateField g with
    | some d =>
      if d == latest then g :: CGR.collectTies gs latest
      else if DT.ltb d latest then []
      else CGR.collectTies gs latest
    | none => CGR.collectTies gs latest

/-- `get_last_processed_datetime_and_records` of
createGristRecords.py (lines 257-326), starting from the fetched
window (already sorted `-Transaction_Date` by the store).  Network
failures return `(None, [])` upstream of this logic. -/
def CGR.resolveCursor (window : List Rec) : Option DT × List Rec :=
  match window with
  | [] => (none, [])
  | latest :: _ =>
    let raw := recGet latest "Transaction_Date"
    if !raw.truthy then (none, [])
    else
      match CGR.normalize_date raw PyVal.vNone with
      | none => (none, [])
      | some latestDt => (some latestDt, CGR.collectTies window latestDt)

/-- The tie-collection loop of gristbankupdater (lines 569-577):
append while the **raw** field equals the head's raw field, break at
the first difference. -/
def GBU.collectRaw : List Rec → PyVal → List Rec
  | [], _ => []
  | g :: gs, raw =>
    if pyEq (recGet g "Transaction_Date") raw then g :: GBU.collectRaw gs raw
    else []

/-- `get_last_processed_datetime_and_records` of gristbankupdater.py
(lines 534-590): returns the head's **raw** `Transaction_Date` value
(parsing happens only for logging) and the prefix of records sharing
exactly that raw value. -/
def GBU.resolveCursor (window : List Rec) : Option PyVal × List Rec :=
  match window with
  | [] => (none, [])
  | latest :: _ =>
    let raw := recGet latest "Transaction_Date"
    if !raw.truthy then (none, [])
    else (some raw, GBU.collectRaw window raw)

/-! ## Record mapper `prepare_grist_record` -/

/-- One destination column: id, declared type, display label. -/
structure GCol where
  id : String
  ty : String
  label : String
deriving DecidableEq, Repr

/-- The destination schema (`get_grist_table_structure`), in the
store's column order. -/
abbrev GStruct := List GCol

def mapLookup (m : List (String × String)) (k : String) : Option String :=
  (m.find? (fun p => p.1 == k)).map (fun p => p.2)

/-- Column-id resolution: the explicit name map first, then the first
schema column whose label or id equals the field name. -/
def resolveGristField (m : List (String × String)) (gs : GStruct)
    (fieldName : String) : Option String :=
  match mapLookup m fieldName with
  | some gf => some gf
  | none => (gs.find? (fun c => c.label == fieldName || c.id == fieldName)).map (fun c => c.id)

def gsType (gs : GStruct) (gf : String) : Option String :=
  (gs.find? (fun c => c.id == gf)).map (fun c => c.ty)

def UTG.googleToGristMap : List (String × String) :=
  [("Transaction Date", "Transaction_Date"),
   ("Transaction Description", "Transaction_Description"),
   ("Transaction Amount", "Transaction_Amount"),
   ("Reference No.", "Reference_No"),
   ("Value Date", "Value_Date"),
   ("GSheets_RowNum", "GSheets_RowNum")]

def GBU.googleToGristMap : List (String × String) :=
  [("Transaction Date", "Transaction_Date"),
   ("Transaction Description", "Transaction_Description"),
   ("Transaction Amount", "Transaction_Amount"),
   ("Reference No.", "Reference_No"),
   ("Value Date", "Value_Date")]

/-- One loop iteration of `prepare_grist_record` in uploadToGrist.py
(lines 240-304): `none` means the field contributes nothing to the
output dict. -/
def UTG.prepareField (gs : GStruct) (bank : PyVal) (fieldName : String)
    (v : PyVal) : Option (String × PyVal) :=
  if v == PyVal.vNone || v == PyVal.vStr "" then none
  else
    match resolveGristField UTG.googleToGristMap gs fieldName with
    | none => none
    | some gf =>
      match gsType gs gf with
      | none => none
      | some ty =>
        let nv : Option PyVal :=
          if ty == "Date" || fieldName == "Transaction Date" || fieldName == "Value Date" then
            (UTG.normalize_date v bank).map (fun d =>
              if gf == "Value_Date" then PyVal.vStr ⟨fmtYMDChars d⟩
              else PyVal.vStr ⟨fmtYMDHMSChars d⟩)
          else if ty == "Numeric" then (normalize_amount v).map PyVal.vFloat
          else if ty == "Int" || fieldName == "GSheets_RowNum" then
            (normalize_integer v).map PyVal.vInt
          else if v.truthy then some (PyVal.vStr (pyStr v)) else none
        nv.map (fun x => (gf, x))

/-- `prepare_grist_record` of uploadToGrist.py: fold the per-field
step over the record (a later duplicate destination id would
overwrite in the Python dict; the claims only concern which values
appear, which `filterMap` preserves). -/
def UTG.prepare_grist_record (r : Rec) (gs : GStruct) : Rec :=
  let bank := recGet r "Bank"
  r.filterMap (fun p => UTG.prepareField gs bank p.1 p.2)

/-- One loop iteration of `prepare_grist_record` in
gristbankupdater.py (lines 378-442): Date columns receive the
`datetime` object itself; the forced-date branch for known date
fields sits after the Numeric branch. -/
def GBU.prepareField (gs : GStruct) (bank : PyVal) (fieldName : String)
    (v : PyVal) : Option (String × PyVal) :=
  if v == PyVal.vNone || v == PyVal.vStr "" then none
  else
    match resolveGristField GBU.googleToGristMap gs fieldName with
    | none => none
    | some gf =>
      match gsType gs gf with
      | none => none
      | some ty =>
        let nv : Option PyVal :=
          if ty == "Date" then (GBU.normalize_date v bank).map PyVal.vDt
          else if ty == "Numeric" then (normalize_amount v).map PyVal.vFloat
          else if fieldName == "Transaction Date" || fieldName == "Value Date" then
            (GBU.normalize_date v bank).map PyVal.vDt
          else if v.truthy then some (PyVal.vStr (pyStr v)) else none
        nv.map (fun x => (gf, x))

/-- `prepare_grist_record` of gristbankupdater.py. -/
def GBU.prepare_grist_record (r : Rec) (gs : GStruct) : Rec :=
  let bank := recGet r "Bank"
  r.filterMap (fun p => GBU.prepareField gs bank p.1 p.2)

/-! ## Archive naming -/

/-- `os.path.splitext` (for the simple `name.ext` paths used here):
split at the last dot of the final component, provided the component
does not start with that dot. -/
def splitExt (p : String) : String × String :=
  let rev := p.data.reverse
  match rev.dropWhile (fun c => c ≠ '.' ∧ c ≠ '/') with
  | '.' :: restRev =>
    if (restRev.takeWhile (fun c => c ≠ '/')).isEmpty then (p, "")
    else (⟨restRev.reverse⟩, ⟨'.' :: (rev.takeWhile (fun c => c ≠ '.' ∧ c ≠ '/')).reverse⟩)
  | _ => (p, "")

/-- Destination chosen by `archive_file` of createGristRecords.py
(lines 370-387): `archiveDir/fileName`, or, when that exact path
already exists, the same path with `_<timestamp>` inserted before the
extension.  `existing` is the set of paths present in the filesystem
and `ts` the already-formatted `%Y%m%d_%H%M%S` wall-clock string;
`os.rename` then replaces the destination silently if it exists. -/
def CGR.archivePath (existing : List String) (archiveDir fileName ts : String) : String :=
  let p := archiveDir ++ "/" ++ fileName
  if existing.contains p then
    let ne := splitExt p
    ne.1 ++ "_" ++ ts ++ ne.2
  else p

/-- Destination chosen by `archive_csv_file` of uploadToGrist.py
(lines 445-467): always `archiveDir/Uploaded-<name>_<timestamp><ext>`,
with no existence check at all. -/
def UTG.archivePath (archiveDir csvFileName ts : String) : String :=
  let ne := splitExt csvFileName
  archiveDir ++ "/" ++ ("Uploaded-" ++ ne.1 ++ "_" ++ ts ++ ne.2)

/-! ## Upload orchestration (uploadToGrist.main, lines 469-511)

The external effects are replaced by an environment: the outcome of
the connection test, the parsed CSV rows, the fetched schema, the
bulk call's outcome, and whether the staged file still exists and the
rename succeeds.  The run produces the exit code and the ordered
trace of remote/filesystem effects. -/

inductive UAction where
  | bulkInsert | archiveMove
deriving DecidableEq, Repr

structure UploadEnv where
  connOk : Bool
  csvRecords : List Rec
  gstruct : GStruct
  bulkOk : Bool
  fileExists : Bool
  renameOk : Bool

/-- `create_grist_records_bulk` (lines 306-345): an empty batch is
success without an HTTP call; otherwise one bulk POST whose outcome
the environment supplies. -/
def UTG.createBulk (env : UploadEnv) (recs : List Rec) : Bool × List UAction :=
  if recs.isEmpty then (true, [])
  else (env.bulkOk, [UAction.bulkInsert])

/-- The successfully mapped records of the batch: each CSV row gains
`Bank='UNKNOWN'` when it has no `Bank` key, is mapped through
`prepare_grist_record`, and empty mapped records are skipped. -/
def UTG.preparedBatch (env : UploadEnv) : List Rec :=
  let withBank := env.csvRecords.map (fun r =>
    if (r.find? (fun p => p.1 == "Bank")).isSome then r
    else r ++ [("Bank", PyVal.vStr "UNKNOWN")])
  (withBank.map (fun r => UTG.prepare_grist_record r env.gstruct)).filter
    (fun pr => !pr.isEmpty)

/-- `upload_records_to_grist` (lines 401-443): empty input is
success; a missing schema aborts; if nothing mapped, abort;
otherwise the bulk call decides. -/
def UTG.uploadRecords (env : UploadEnv) : Bool × List UAction :=
  if env.csvRecords.isEmpty then (true, [])
  else if env.gstruct.isEmpty then (false, [])
  else if (UTG.preparedBatch env).isEmpty then (false, [])
  else UTG.createBulk env (UTG.preparedBatch env)

/-- `archive_csv_file` (lines 445-467): nothing happens if the file
is gone; otherwise one rename that may fail. -/
def UTG.archiveStep (env : UploadEnv) : Bool × List UAction :=
  if !env.fileExists then (false, [])
  else if env.renameOk then (true, [UAction.archiveMove])
  else (false, [])

/-- `main` (lines 469-511), from the point where a staged CSV has
been selected: test the connection, read the records, and either
upload-then-archive (archiving only on upload success) or, for an
empty record set, archive directly. -/
def UTG.mainRun (env : UploadEnv) : Nat × List UAction :=
  if !env.connOk then (1, [])
  else if !env.csvRecords.isEmpty then
    let u := UTG.uploadRecords env
    if u.1 then
      let a := UTG.archiveStep env
      (if a.1 then 0 else 1, u.2 ++ a.2)
    else (1, u.2)
  else
    let a := if env.fileExists then (UTG.archiveStep env).2 else []
    (0, a)

/-- `_format_datetime_for_output` of createGristRecords.py (lines
85-87): `strftime("%m/%d/%Y %H:%M:%S")`, the pipeline's canonical
output format for `Transaction Date` in the staged CSV. -/
def CGR.format_datetime_for_output (t : DT) : String := ⟨fmtMDYHMSChars t⟩

/-! ## Facts about zero-padded digit output (for the round-trip and
resolver proofs) -/

theorem dchar_isDigit {n : Nat} (h : n ≤ 9) : (dchar n).isDigit = true := by
  interval_cases n <;> decide

theorem dv_dchar {n : Nat} (h : n ≤ 9) : dv (dchar n) = n := by
  interval_cases n <;> decide

theorem dchar_not_ws {n : Nat} (h : n ≤ 9) : (dchar n).isWhitespace = false := by
  interval_cases n <;> decide

theorem dchar_toLower_ne_a {n : Nat} (h : n ≤ 9) : (dchar n).toLower ≠ 'a' := by
  interval_cases n <;> decide

theorem dchar_toLower_ne_p {n : Nat} (h : n ≤ 9) : (dchar n).toLower ≠ 'p' := by
  interval_cases n <;> decide

theorem dchar_ne_dash {n : Nat} (h : n ≤ 9) : dchar n ≠ '-' := by
  interval_cases n <;> decide

theorem alt2_pad2c {lo hi n : Nat} (r : List Char) (h1 : lo ≤ n) (h2 : n ≤ hi)
    (h9 : n ≤ 99) : alt2 lo hi (pad2c n ++ r) = some (n, r) := by
  have d1 : (dchar (n / 10)).isDigit = true := dchar_isDigit (by omega)
  have d2 : (dchar (n % 10)).isDigit = true := dchar_isDigit (by omega)
  have v1 : dv (dchar (n / 10)) = n / 10 := dv_dchar (by omega)
  have v2 : dv (dchar (n % 10)) = n % 10 := dv_dchar (by omega)
  simp [alt2, pad2c, d1, d2, v1, v2]
  constructor
  · constructor <;> omega
  · omega

theorem alt4_pad4c {n : Nat} (r : List Char) (h : n ≤ 9999) :
    alt4 (pad4c n ++ r) = some (n, r) := by
  have d1 : (dchar (n / 1000)).isDigit = true := dchar_isDigit (by omega)
  have d2 : (dchar (n / 100 % 10)).isDigit = true := dchar_isDigit (by omega)
  have d3 : (dchar (n / 10 % 10)).isDigit = true := dchar_isDigit (by omega)
  have d4 : (dchar (n % 10)).isDigit = true := dchar_isDigit (by omega)
  have v1 : dv (dchar (n / 1000)) = n / 1000 := dv_dchar (by omega)
  have v2 : dv (dchar (n / 100 % 10)) = n / 100 % 10 := dv_dchar (by omega)
  have v3 : dv (dchar (n / 10 % 10)) = n / 10 % 10 := dv_dchar (by omega)
  have v4 : dv (dchar (n % 10)) = n % 10 := dv_dchar (by omega)
  simp [alt4, pad4c, d1, d2, d3, d4, v1, v2, v3, v4]
  omega

theorem runToks_lit {c : Char} {ts : List FTok} {r : List Char} {acc : PD} :
    runToks (.lit c :: ts) (c :: r) acc = runToks ts r acc := by
  simp [runToks]

theorem runToks_nil (acc : PD) : runToks [] [] acc = some acc := by
  simp [runToks]

theorem runToks_fm_step {m : Nat} {ts : List FTok} {r : List Char} {acc out : PD}
    (h1 : 1 ≤ m) (h2 : m ≤ 12)
    (hv : runToks ts r { acc with mo := some m } = some out) :
    runToks (.fm :: ts) (pad2c m ++ r) acc = some out := by
  rw [runToks, alt2_pad2c r h1 h2 (by omega)]
  simp [numAlts, List.findSome?_cons, hv]

theorem runToks_fd_step {d : Nat} {ts : List FTok} {r : List Char} {acc out : PD}
    (h1 : 1 ≤ d) (h2 : d ≤ 31)
    (hv : runToks ts r { acc with d := some d } = some out) :
    runToks (.fd :: ts) (pad2c d ++ r) acc = some out := by
  rw [runToks, alt2_pad2c r h1 h2 (by omega)]
  simp [numAlts, List.findSome?_cons, hv]

theorem runToks_fY_step {y : Nat} {ts : List FTok} {r : List Char} {acc out : PD}
    (h : y ≤ 9999)
    (hv : runToks ts r { acc with y := some y } = some out) :
    runToks (.fY :: ts) (pad4c y ++ r) acc = some out := by
  rw [runToks, alt4_pad4c r h]
  simp [numAlts, List.findSome?_cons, hv]

theorem runToks_fH_step {h : Nat} {ts : List FTok} {r : List Char} {acc out : PD}
    (h2 : h ≤ 23)
    (hv : runToks ts r { acc with h := some h } = some out) :
    runToks (.fH :: ts) (pad2c h ++ r) acc = some out := by
  rw [runToks, alt2_pad2c r (Nat.zero_le h) h2 (by omega)]
  simp [numAlts, List.findSome?_cons, hv]

theorem runToks_fMin_step {mi : Nat} {ts : List FTok} {r : List Char} {acc out : PD}
    (h2 : mi ≤ 59)
    (hv : runToks ts r { acc with mi := some mi } = some out) :
    runToks (.fMin :: ts) (pad2c mi ++ r) acc = some out := by
  rw [runToks, alt2_pad2c r (Nat.zero_le mi) h2 (by omega)]
  simp [numAlts, List.findSome?_cons, hv]

theorem runToks_fS_step {s : Nat} {ts : List FTok} {r : List Char} {acc out : PD}
    (h2 : s ≤ 61)
    (hv : runToks ts r { acc with s := some s } = some out) :
    runToks (.fS :: ts) (pad2c s ++ r) acc = some out := by
  rw [runToks, alt2_pad2c r (Nat.zero_le s) h2 (by omega)]
  simp [numAlts, List.findSome?_cons, hv]

/-- Any format whose tokens start `%m` followed by a literal dash
fails on a month-first slash-separated rendering. -/
theorem runToks_fm_dash {m : Nat} (h1 : 1 ≤ m) (h2 : m ≤ 12)
    (ts : List FTok) (r : List Char) (acc : PD) :
    runToks (.fm :: .lit '-' :: ts) (pad2c m ++ '/' :: r) acc = none := by
  rw [runToks, alt2_pad2c ('/' :: r) h1 h2 (by omega)]
  have hd : (dchar (m % 10)).isDigit = true := dchar_isDigit (by omega)
  by_cases hm : m ≤ 9
  · have e0 : m / 10 = 0 := by omega
    simp [numAlts, alt1, pad2c, e0, List.findSome?_cons, runToks, dv, dchar]
  · have e1 : m / 10 = 1 := by omega
    simp [numAlts, alt1, pad2c, e1, List.findSome?_cons, runToks,
      dchar_ne_dash (show m % 10 ≤ 9 by omega)]

/-- A well-formed `datetime` as produced by the parsers (year kept at
four digits, since `strftime("%Y")` pads below 1000 only on some
platforms). -/
def ValidDT (t : DT) : Prop :=
  1000 ≤ t.year ∧ t.year ≤ 9999 ∧ 1 ≤ t.month ∧ t.month ≤ 12 ∧
    1 ≤ t.day ∧ t.day ≤ daysInMonth t.year t.month ∧
    t.hour ≤ 23 ∧ t.minute ≤ 59 ∧ t.second ≤ 59

instance (t : DT) : Decidable (ValidDT t) := by
  unfold ValidDT; infer_instance

theorem daysInMonth_le (y m : Nat) : daysInMonth y m ≤ 31 := by
  unfold daysInMonth; split_ifs <;> omega

theorem containsSub_pair_of_ne {c0 c1 : Char} :
    ∀ {l : List Char}, (∀ c ∈ l, c ≠ c0) → containsSub l [c0, c1] = false := by
  intro l
  induction l with
  | nil => intro _; rfl
  | cons a t ih =>
    intro h
    have ha : (c0 == a) = false := by
      simp only [beq_eq_false_iff_ne]
      exact fun he => (h a (by simp)) he.symm
    simp only [containsSub, List.isPrefixOf, ha, Bool.false_and, Bool.false_or]
    exact ih (fun c hc => h c (by simp [hc]))

theorem pyStripList_id {a c : Char} {mid : List Char} (ha : a.isWhitespace = false)
    (hc : c.isWhitespace = false) :
    pyStripList (a :: (mid ++ [c])) = a :: (mid ++ [c]) := by
  unfold pyStripList
  rw [List.dropWhile_cons]
  simp only [ha, Bool.false_eq_true, if_false]
  rw [show (a :: (mid ++ [c])).reverse = c :: (mid.reverse ++ [a]) by simp]
  rw [List.dropWhile_cons]
  simp [hc]

/-- The canonical output decomposed as head, middle, last. -/
theorem fmtMDYHMS_shape (t : DT) :
    fmtMDYHMSChars t = dchar (t.month / 10) ::
      ([dchar (t.month % 10), '/', dchar (t.day / 10), dchar (t.day % 10), '/',
        dchar (t.year / 1000), dchar (t.year / 100 % 10), dchar (t.year / 10 % 10),
        dchar (t.year % 10), ' ', dchar (t.hour / 10), dchar (t.hour % 10), ':',
        dchar (t.minute / 10), dchar (t.minute % 10), ':', dchar (t.second / 10)] ++
        [dchar (t.second % 10)]) := by
  simp [fmtMDYHMSChars, pad2c, pad4c]

theorem mem_fmtMDYHMS {t : DT} (h : ValidDT t) {c : Char}
    (hc : c ∈ fmtMDYHMSChars t) :
    (∃ n, n ≤ 9 ∧ c = dchar n) ∨ c = '/' ∨ c = ' ' ∨ c = ':' := by
  obtain ⟨hy1, hy2, hm1, hm2, hd1, hd2, hh, hmi, hs⟩ := h
  have hd31 : t.day ≤ 31 := le_trans hd2 (daysInMonth_le t.year t.month)
  rw [fmtMDYHMS_shape] at hc
  simp [List.mem_cons, List.mem_append, or_assoc] at hc
  rcases hc with h|h|h|h|h|h|h|h|h|h|h|h|h|h|h|h|h|h|h <;>
    first
      | (refine Or.inl ⟨_, ?_, h⟩; omega)
      | (right; tauto)

theorem pyStrip_fmtMDYHMS (t : DT) (h : ValidDT t) :
    pyStripList (fmtMDYHMSChars t) = fmtMDYHMSChars t := by
  obtain ⟨hy1, hy2, hm1, hm2, hd1, hd2, hh, hmi, hs⟩ := h
  rw [fmtMDYHMS_shape]
  exact pyStripList_id (dchar_not_ws (by omega)) (dchar_not_ws (by omega))

theorem isdigit_fmtMDYHMS (t : DT) : isdigitStr ⟨fmtMDYHMSChars t⟩ = false := by
  simp [isdigitStr, fmtMDYHMSChars, pad2c, pad4c]

theorem amPmNormLower_fmtMDYHMS (t : DT) (h : ValidDT t) :
    amPmNormLower ⟨fmtMDYHMSChars t⟩ = ⟨fmtMDYHMSChars t⟩ := by
  have key : ∀ (x : Char), ∀ c ∈ (fmtMDYHMSChars t).map Char.toLower,
      (∀ n ≤ 9, (dchar n).toLower ≠ x) → ('/' : Char).toLower ≠ x →
      (' ' : Char).toLower ≠ x → (':' : Char).toLower ≠ x → c ≠ x := by
    intro x c hc hdig hs1 hs2 hs3
    obtain ⟨c0, hc0, rfl⟩ := List.mem_map.mp hc
    rcases mem_fmtMDYHMS h hc0 with ⟨n, hn, rfl⟩ | rfl | rfl | rfl
    · exact hdig n hn
    · exact hs1
    · exact hs2
    · exact hs3
  have hna : strContains (lowerStr ⟨fmtMDYHMSChars t⟩) "am" = false := by
    apply containsSub_pair_of_ne
    intro c hc
    exact key 'a' c hc (fun n hn => dchar_toLower_ne_a hn) (by decide) (by decide) (by decide)
  have hnp : strContains (lowerStr ⟨fmtMDYHMSChars t⟩) "pm" = false := by
    apply containsSub_pair_of_ne
    intro c hc
    exact key 'p' c hc (fun n hn => dchar_toLower_ne_p hn) (by decide) (by decide) (by decide)
  simp [amPmNormLower, hna, hnp]

/-- On the canonical month-first rendering, the format
`%m/%d/%Y %H:%M:%S` recovers the instant exactly. -/
theorem strptime_fmtMDYHMS (t : DT) (h : ValidDT t) :
    strptime ⟨fmtMDYHMSChars t⟩ "%m/%d/%Y %H:%M:%S" = some t := by
  obtain ⟨hy1, hy2, hm1, hm2, hd1, hd2, hh, hmi, hs⟩ := h
  have hd31 : t.day ≤ 31 := le_trans hd2 (daysInMonth_le t.year t.month)
  have teq : fmtToks "%m/%d/%Y %H:%M:%S".data =
      [.fm, .lit '/', .fd, .lit '/', .fY, .lit ' ', .fH, .lit ':', .fMin,
       .lit ':', .fS] := by decide
  have hrun : runToks (fmtToks "%m/%d/%Y %H:%M:%S".data) (fmtMDYHMSChars t) {} =
      some { y := some t.year, mo := some t.month, d := some t.day,
             h := some t.hour, i := none, mi := some t.minute,
             s := some t.second, pm := none } := by
    rw [teq]
    unfold fmtMDYHMSChars
    apply runToks_fm_step hm1 hm2
    rw [runToks_lit]
    apply runToks_fd_step hd1 hd31
    rw [runToks_lit]
    apply runToks_fY_step hy2
    rw [runToks_lit]
    apply runToks_fH_step hh
    rw [runToks_lit]
    apply runToks_fMin_step hmi
    rw [runToks_lit]
    apply runToks_fS_step (by omega)
    exact runToks_nil _
  have c1 : 1 ≤ t.year := by omega
  unfold strptime
  rw [hrun]
  simp [mkDT, c1, hd2, hh, hs]

/-- Formats beginning `%m-` (the first three ICICI-priority formats)
fail on the canonical slash-separated rendering. -/
theorem strptime_fm_dash_none {t : DT} (hm1 : 1 ≤ t.month) (hm2 : t.month ≤ 12)
    (fmt : String) (ts : List FTok)
    (hf : fmtToks fmt.data = .fm :: .lit '-' :: ts) :
    strptime ⟨fmtMDYHMSChars t⟩ fmt = none := by
  unfold strptime
  rw [hf]
  have hr : runToks (FTok.fm :: FTok.lit '-' :: ts) (fmtMDYHMSChars t) {} = none := by
    unfold fmtMDYHMSChars
    exact runToks_fm_dash hm1 hm2 _ _ _
  rw [show (⟨fmtMDYHMSChars t⟩ : String).data = fmtMDYHMSChars t from rfl, hr]

/-- Round trip of the canonical output under the ICICI hint: the
month-first format `%m/%d/%Y %H:%M:%S` is fourth in the ICICI
priority list, after three dash-separated formats that cannot match,
so the instant is recovered exactly. -/
theorem CGR.parse_roundtrip_icici (t : DT) (h : ValidDT t) :
    CGR.parse_date_string (CGR.format_datetime_for_output t) (PyVal.vStr "ICICI") =
      some t := by
  obtain ⟨hy1, hy2, hm1, hm2, hd1, hd2, hh, hmi, hs⟩ := h
  have hne : (fmtMDYHMSChars t).isEmpty = false := by
    rw [fmtMDYHMS_shape]; rfl
  have hstrip : pyStrip ⟨fmtMDYHMSChars t⟩ = ⟨fmtMDYHMSChars t⟩ := by
    unfold pyStrip
    rw [show (⟨fmtMDYHMSChars t⟩ : String).data = fmtMDYHMSChars t from rfl]
    rw [pyStrip_fmtMDYHMS t ⟨hy1, hy2, hm1, hm2, hd1, hd2, hh, hmi, hs⟩]
  have hdig : isdigitStr ⟨fmtMDYHMSChars t⟩ = false := isdigit_fmtMDYHMS t
  have hampm : amPmNormLower ⟨fmtMDYHMSChars t⟩ = ⟨fmtMDYHMSChars t⟩ :=
    amPmNormLower_fmtMDYHMS t ⟨hy1, hy2, hm1, hm2, hd1, hd2, hh, hmi, hs⟩
  have hb : bankCheck (PyVal.vStr "ICICI") = BankCheck.icici := by decide
  have hf1 : strptime ⟨fmtMDYHMSChars t⟩ "%m-%d-%Y %I:%M:%S %p" = none :=
    strptime_fm_dash_none hm1 hm2 _
      [.fd, .lit '-', .fY, .lit ' ', .fI, .lit ':', .fMin, .lit ':', .fS,
       .lit ' ', .fp] (by decide)
  have hf2 : strptime ⟨fmtMDYHMSChars t⟩ "%m-%d-%Y %H:%M:%S" = none :=
    strptime_fm_dash_none hm1 hm2 _
      [.fd, .lit '-', .fY, .lit ' ', .fH, .lit ':', .fMin, .lit ':', .fS] (by decide)
  have hf3 : strptime ⟨fmtMDYHMSChars t⟩ "%m-%d-%Y" = none :=
    strptime_fm_dash_none hm1 hm2 _ [.fd, .lit '-', .fY] (by decide)
  have hf4 : strptime ⟨fmtMDYHMSChars t⟩ "%m/%d/%Y %H:%M:%S" = some t :=
    strptime_fmtMDYHMS t ⟨hy1, hy2, hm1, hm2, hd1, hd2, hh, hmi, hs⟩
  unfold CGR.format_datetime_for_output CGR.parse_date_string
  rw [show (⟨fmtMDYHMSChars t⟩ : String).data = fmtMDYHMSChars t from rfl]
  simp only [hne, hstrip, hdig, hampm, hb, Bool.false_eq_true, if_false]
  simp [CGR.mmFormats, CGR.ddFormats, List.findSome?_cons, hf1, hf2, hf3, hf4]

theorem CGR.normalize_date_truthy {v b : PyVal} {d : DT}
    (h : CGR.normalize_date v b = some d) : v.truthy = true := by
  rcases hb : v.truthy with _ | _
  · unfold CGR.normalize_date at h
    rw [hb] at h
    simp at h
  · rfl

/-- Under a descending window in which every record's date
normalizes, the tie-collection loop returns exactly the records whose
normalized date equals the cursor instant. -/
theorem CGR.collectTies_eq (m : DT) :
    ∀ (pairs : List (Rec × DT)),
    (∀ p ∈ pairs, CGR.normDateField p.1 = some p.2) →
    pairs.Pairwise (fun a b => DT.ltb a.2 b.2 = false) →
    (∀ p ∈ pairs, DT.ltb m p.2 = false) →
    CGR.collectTies (pairs.map Prod.fst) m =
      (pairs.filter (fun p => p.2 == m)).map Prod.fst := by
  intro pairs
  induction pairs with
  | nil => intro _ _ _; rfl
  | cons hd tl ih =>
    intro hall hsort hmax
    obtain ⟨r, d⟩ := hd
    by_cases hdm : d = m
    · subst hdm
      have htl := ih (fun p hp => hall p (by simp [hp]))
        (List.pairwise_cons.mp hsort).2
        (fun p hp => hmax p (by simp [hp]))
      simp only [List.map_cons, CGR.collectTies, hall (r, d) (by simp),
        List.filter_cons]
      simp [htl]
    · have hlt : DT.ltb d m = true := by
        rcases Bool.eq_false_or_eq_true (DT.ltb d m) with ht | hf
        · exact ht
        · exact absurd (DT.eq_of_not_ltb hf (hmax (r, d) (by simp))) hdm
      have hrest : tl.filter (fun p => p.2 == m) = [] := by
        rw [List.filter_eq_nil_iff]
        intro p hp
        have hds : DT.ltb d p.2 = false := (List.pairwise_cons.mp hsort).1 p hp
        simp only [beq_iff_eq]
        intro hpm
        rw [hpm] at hds
        rw [hds] at hlt
        exact Bool.false_ne_true hlt
      simp only [List.map_cons, CGR.collectTies, hall (r, d) (by simp),
        List.filter_cons]
      simp [hdm, hlt, hrest]

/-- The createGristRecords cursor resolver, on a descending window
whose dates all normalize: the cursor is the head's (maximal) instant
and the tie set is exactly the same-instant records. -/
theorem CGR.resolveCursor_spec (r0 : Rec) (m : DT) (rest : List (Rec × DT))
    (hall : ∀ p ∈ ((r0, m) :: rest), CGR.normDateField p.1 = some p.2)
    (hsort : ((r0, m) :: rest).Pairwise (fun a b => DT.ltb a.2 b.2 = false)) :
    CGR.resolveCursor (((r0, m) :: rest).map Prod.fst) =
      (some m, ((((r0, m) :: rest)).filter (fun p => p.2 == m)).map Prod.fst) ∧
    (∀ p ∈ ((r0, m) :: rest), DT.ltb m p.2 = false) := by
  have h0 : CGR.normDateField r0 = some m := hall (r0, m) (by simp)
  have hmax : ∀ p ∈ ((r0, m) :: rest), DT.ltb m p.2 = false := by
    intro p hp
    rcases List.mem_cons.mp hp with rfl | hp2
    · exact DT.ltb_irrefl m
    · exact (List.pairwise_cons.mp hsort).1 p hp2
  refine ⟨?_, hmax⟩
  have htruthy : (recGet r0 "Transaction_Date").truthy = true :=
    CGR.normalize_date_truthy (v := recGet r0 "Transaction_Date") (b := PyVal.vNone) h0
  have hties := CGR.collectTies_eq m ((r0, m) :: rest) hall hsort hmax
  simp only [List.map_cons] at hties ⊢
  unfold CGR.normDateField at h0
  unfold CGR.resolveCursor
  simp [htruthy, h0, hties]

/-! # Claims -/

/-- C1: in the timestamp cursor strategy (both `should_process_record`
copies), a source record with a successfully normalized date is: newer
than the cursor → included; older → excluded; equal → included iff it
matches no record of the tie set; and with no cursor at all → always
included. -/
theorem claim_C1 (f : Rec) (fd ld : DT) (ties : List Rec) :
    (CGR.should_process_record f (some fd) none ties = true ∧
      GBU.should_process_record f (some fd) none ties = true) ∧
    (DT.ltb ld fd = true →
      CGR.should_process_record f (some fd) (some ld) ties = true ∧
      GBU.should_process_record f (some fd) (some ld) ties = true) ∧
    (DT.ltb fd ld = true →
      CGR.should_process_record f (some fd) (some ld) ties = false ∧
      GBU.should_process_record f (some fd) (some ld) ties = false) ∧
    (fd = ld →
      (CGR.should_process_record f (some fd) (some ld) ties = true ↔
        ∀ g ∈ ties, CGR.record_matches f g = false) ∧
      (GBU.should_process_record f (some fd) (some ld) ties = true ↔
        ∀ g ∈ ties, GBU.record_matches f g = false)) := by
  refine ⟨⟨rfl, rfl⟩, ?_, ?_, ?_⟩
  · intro h
    constructor <;> simp [CGR.should_process_record, GBU.should_process_record, h]
  · intro h
    have h2 := DT.ltb_asymm h
    constructor <;> simp [CGR.should_process_record, GBU.should_process_record, h, h2]
  · intro h
    subst h
    constructor <;>
      simp [CGR.should_process_record, GBU.should_process_record, DT.ltb_irrefl,
        List.any_eq_true]

theorem claim_C1_witness :
    CGR.should_process_record [] (some ⟨2025, 1, 2, 0, 0, 0⟩)
      (some ⟨2025, 1, 1, 0, 0, 0⟩) [] = true ∧
    GBU.should_process_record [] (some ⟨2025, 1, 1, 0, 0, 0⟩)
      (some ⟨2025, 1, 2, 0, 0, 0⟩) [] = false :=
  ⟨((claim_C1 [] ⟨2025, 1, 2, 0, 0, 0⟩ ⟨2025, 1, 1, 0, 0, 0⟩ []).2.1 (by decide)).1,
   ((claim_C1 [] ⟨2025, 1, 1, 0, 0, 0⟩ ⟨2025, 1, 2, 0, 0, 0⟩ []).2.2.1 (by decide)).2⟩

/-- The parsers depend on the bank value only through `bankCheck`. -/
theorem parse_bank_congrCGR (ds : String) {b1 b2 : PyVal}
    (h : bankCheck b1 = bankCheck b2) :
    CGR.parse_date_string ds b1 = CGR.parse_date_string ds b2 := by
  unfold CGR.parse_date_string
  rw [h]

theorem parse_bank_congrUTG (ds : String) {b1 b2 : PyVal}
    (h : bankCheck b1 = bankCheck b2) :
    UTG.parse_date_string ds b1 = UTG.parse_date_string ds b2 := by
  unfold UTG.parse_date_string
  rw [h]

theorem parse_bank_congrGBU (ds : String) {b1 b2 : PyVal}
    (h : bankCheck b1 = bankCheck b2) :
    GBU.parse_date_string ds b1 = GBU.parse_date_string ds b2 := by
  unfold GBU.parse_date_string
  rw [h]

/-- C2 counterexample: the gristbankupdater copy of the parser turns
`"07/02/2025"` **with no bank hint** into July 2, 2025, not
February 7: its day-first list has no date-only slashed format, so
the string falls through to the month-first list. -/
theorem claim_C2_counterexample :
    GBU.normalize_date (PyVal.vStr "07/02/2025") PyVal.vNone =
      some ⟨2025, 7, 2, 0, 0, 0⟩ ∧
    GBU.normalize_date (PyVal.vStr "07/02/2025") PyVal.vNone ≠
      some ⟨2025, 2, 7, 0, 0, 0⟩ := by
  constructor
  · decide
  · decide

/-- C2 as amended: with the ICICI hint all three parsers read
`"07/02/2025"` month-first (July 2, 2025); with any other hint the
createGristRecords and uploadToGrist parsers read it day-first
(February 7, 2025), while the gristbankupdater parser still reads it
month-first. -/
theorem claim_C2 (b : PyVal) :
    (bankCheck b = BankCheck.icici →
      CGR.normalize_date (PyVal.vStr "07/02/2025") b = some ⟨2025, 7, 2, 0, 0, 0⟩ ∧
      UTG.normalize_date (PyVal.vStr "07/02/2025") b = some ⟨2025, 7, 2, 0, 0, 0⟩ ∧
      GBU.normalize_date (PyVal.vStr "07/02/2025") b = some ⟨2025, 7, 2, 0, 0, 0⟩) ∧
    (bankCheck b = BankCheck.other →
      CGR.normalize_date (PyVal.vStr "07/02/2025") b = some ⟨2025, 2, 7, 0, 0, 0⟩ ∧
      UTG.normalize_date (PyVal.vStr "07/02/2025") b = some ⟨2025, 2, 7, 0, 0, 0⟩ ∧
      GBU.normalize_date (PyVal.vStr "07/02/2025") b = some ⟨2025, 7, 2, 0, 0, 0⟩) := by
  have ec : CGR.normalize_date (PyVal.vStr "07/02/2025") b =
      CGR.parse_date_string "07/02/2025" b := rfl
  have eu : UTG.normalize_date (PyVal.vStr "07/02/2025") b =
      UTG.parse_date_string "07/02/2025" b := rfl
  have eg : GBU.normalize_date (PyVal.vStr "07/02/2025") b =
      GBU.parse_date_string "07/02/2025" b := rfl
  constructor
  · intro h
    have hi : bankCheck b = bankCheck (PyVal.vStr "ICICI") := by
      rw [h]; decide
    rw [ec, eu, eg, parse_bank_congrCGR _ hi, parse_bank_congrUTG _ hi,
      parse_bank_congrGBU _ hi]
    refine ⟨by decide, by decide, by decide⟩
  · intro h
    have hi : bankCheck b = bankCheck PyVal.vNone := by
      rw [h]; decide
    rw [ec, eu, eg, parse_bank_congrCGR _ hi, parse_bank_congrUTG _ hi,
      parse_bank_congrGBU _ hi]
    refine ⟨by decide, by decide, by decide⟩

theorem claim_C2_witness :
    CGR.normalize_date (PyVal.vStr "07/02/2025") (PyVal.vStr "ICICI") =
      some ⟨2025, 7, 2, 0, 0, 0⟩ ∧
    CGR.normalize_date (PyVal.vStr "07/02/2025") (PyVal.vStr "HDFC") =
      some ⟨2025, 2, 7, 0, 0, 0⟩ :=
  ⟨((claim_C2 (PyVal.vStr "ICICI")).1 (by decide)).1,
   ((claim_C2 (PyVal.vStr "HDFC")).2 (by decide)).1⟩

/-- The comparison core shared by both `_record_matches` copies. -/
theorem matches_iff (fd gd : Option DT) (fdesc gdesc : PyVal) (fa ga : Option Rat) :
    (if fd.isNone || fdesc == PyVal.vNone || fa.isNone ||
        gd.isNone || gdesc == PyVal.vNone || ga.isNone then
      false
    else fd == gd && pyEq fdesc gdesc && fa == ga) = true ↔
    ((∃ d, fd = some d ∧ gd = some d) ∧
     (fdesc ≠ PyVal.vNone ∧ gdesc ≠ PyVal.vNone ∧ pyEq fdesc gdesc = true) ∧
     (∃ a, fa = some a ∧ ga = some a)) := by
  rcases fd with _ | d1 <;> rcases gd with _ | d2 <;>
    rcases fa with _ | a1 <;> rcases ga with _ | a2 <;>
    by_cases h1 : fdesc = PyVal.vNone <;> by_cases h2 : gdesc = PyVal.vNone <;>
    simp [h1, h2] <;> aesop

/-- C3: each `_record_matches` copy returns true iff the normalized
dates, the raw descriptions, and the normalized amounts are all
defined (the dates and amounts normalize, the descriptions are not
None) and pairwise equal; whenever any of the six values is absent it
returns false. -/
theorem claim_C3 (f g : Rec) :
    (GBU.record_matches f g = true ↔
      ((∃ d, GBU.normalize_date (recGet f "Transaction Date") (recGet f "Bank") = some d ∧
             GBU.normalize_date (recGet g "Transaction_Date") (recGet f "Bank") = some d) ∧
       (recGet f "Transaction Description" ≠ PyVal.vNone ∧
        recGet g "Transaction_Description" ≠ PyVal.vNone ∧
        pyEq (recGet f "Transaction Description") (recGet g "Transaction_Description") = true) ∧
       (∃ a, normalize_amount (recGet f "Transaction Amount") = some a ∧
             normalize_amount (recGet g "Transaction_Amount") = some a))) ∧
    (CGR.record_matches f g = true ↔
      ((∃ d, CGR.normalize_date (recGet f "Transaction Date") (recGet f "Bank") = some d ∧
             CGR.normalize_date (recGet g "Transaction_Date") PyVal.vNone = some d) ∧
       (recGet f "Transaction Description" ≠ PyVal.vNone ∧
        recGet g "Transaction_Description" ≠ PyVal.vNone ∧
        pyEq (recGet f "Transaction Description") (recGet g "Transaction_Description") = true) ∧
       (∃ a, normalize_amount (recGet f "Transaction Amount") = some a ∧
             normalize_amount (recGet g "Transaction_Amount") = some a))) :=
  ⟨matches_iff _ _ _ _ _ _, matches_iff _ _ _ _ _ _⟩

/-- C4 counterexample: two destination records carrying the **same
normalized instant** in different text renderings (a window that is
sorted descending by timestamp, both timestamps being equal).  The
gristbankupdater resolver compares raw text, so its returned tie set
drops the second same-instant record. -/
theorem claim_C4_counterexample :
    GBU.normalize_date (PyVal.vStr "2025-07-02 10:00:00") PyVal.vNone =
      GBU.normalize_date (PyVal.vStr "02/07/2025 10:00:00") PyVal.vNone ∧
    GBU.resolveCursor
      [[("Transaction_Date", PyVal.vStr "2025-07-02 10:00:00")],
       [("Transaction_Date", PyVal.vStr "02/07/2025 10:00:00")]] =
      (some (PyVal.vStr "2025-07-02 10:00:00"),
       [[("Transaction_Date", PyVal.vStr "2025-07-02 10:00:00")]]) := by
  constructor
  · decide
  · decide

/-- C4 as amended: the createGristRecords resolver satisfies the
claim — on a window sorted descending by normalized timestamp in
which every record's date normalizes, it returns the head's (maximal)
instant together with exactly the records whose normalized timestamp
equals it; the gristbankupdater resolver instead keeps only the
prefix whose **raw** date text equals the head's raw text, so a
same-instant tie in a different rendering is dropped (see the
counterexample). -/
theorem claim_C4 (r0 : Rec) (m : DT) (rest : List (Rec × DT))
    (hall : ∀ p ∈ ((r0, m) :: rest), CGR.normDateField p.1 = some p.2)
    (hsort : ((r0, m) :: rest).Pairwise (fun a b => DT.ltb a.2 b.2 = false)) :
    CGR.resolveCursor (((r0, m) :: rest).map Prod.fst) =
      (some m, (((r0, m) :: rest).filter (fun p => p.2 == m)).map Prod.fst) ∧
    (∀ p ∈ ((r0, m) :: rest), DT.ltb m p.2 = false) :=
  CGR.resolveCursor_spec r0 m rest hall hsort

theorem claim_C4_witness :
    CGR.resolveCursor
      [[("Transaction_Date", PyVal.vStr "2025-07-02 10:00:00")],
       [("Transaction_Date", PyVal.vStr "02/07/2025 10:00:00")],
       [("Transaction_Date", PyVal.vStr "2025-01-01 00:00:00")]] =
      (some ⟨2025, 7, 2, 10, 0, 0⟩,
       [[("Transaction_Date", PyVal.vStr "2025-07-02 10:00:00")],
        [("Transaction_Date", PyVal.vStr "02/07/2025 10:00:00")]]) :=
  (claim_C4 [("Transaction_Date", PyVal.vStr "2025-07-02 10:00:00")]
    ⟨2025, 7, 2, 10, 0, 0⟩
    [([("Transaction_Date", PyVal.vStr "02/07/2025 10:00:00")], ⟨2025, 7, 2, 10, 0, 0⟩),
     ([("Transaction_Date", PyVal.vStr "2025-01-01 00:00:00")], ⟨2025, 1, 1, 0, 0, 0⟩)]
    (by decide) (by decide)).1

/-- C10: duplicate matching in gristbankupdater depends on the source
record's Bank hint **on the destination side**.  Here the source date
is in a hint-independent rendering, yet two source records that are
identical except for Bank get different match results against the
same destination record, because the destination date is re-parsed
with the source's hint; the createGristRecords copy (destination
normalized with no hint) gives both records the same result. -/
theorem claim_C10 :
    ∃ (base g : Rec),
      GBU.normalize_date (recGet g "Transaction_Date") (PyVal.vStr "ICICI") ≠
        GBU.normalize_date (recGet g "Transaction_Date") (PyVal.vStr "HDFC") ∧
      GBU.record_matches (("Bank", PyVal.vStr "ICICI") :: base) g = true ∧
      GBU.record_matches (("Bank", PyVal.vStr "HDFC") :: base) g = false ∧
      CGR.record_matches (("Bank", PyVal.vStr "ICICI") :: base) g =
        CGR.record_matches (("Bank", PyVal.vStr "HDFC") :: base) g := by
  refine ⟨[("Transaction Date", PyVal.vStr "2025-07-02 10:00:00"),
           ("Transaction Description", PyVal.vStr "X"),
           ("Transaction Amount", PyVal.vStr "100")],
          [("Transaction_Date", PyVal.vStr "07/02/2025 10:00:00"),
           ("Transaction_Description", PyVal.vStr "X"),
           ("Transaction_Amount", PyVal.vStr "100")], ?_, ?_, ?_, ?_⟩
  · decide
  · decide
  · decide
  · decide

theorem prepareField_zero_amountUTG (gs : GStruct) (bank : PyVal) :
    UTG.prepareField gs bank "Transaction Amount" (PyVal.vInt 0) = none := by
  rcases hty : gsType gs "Transaction_Amount" with _ | ty
  · simp [UTG.prepareField, resolveGristField, mapLookup, UTG.googleToGristMap, hty]
  · simp [UTG.prepareField, resolveGristField, mapLookup, UTG.googleToGristMap, hty]
    split_ifs <;>
      simp_all [UTG.normalize_date, normalize_amount, normalize_integer, PyVal.truthy]

theorem prepareField_zero_amountGBU (gs : GStruct) (bank : PyVal) :
    GBU.prepareField gs bank "Transaction Amount" (PyVal.vInt 0) = none := by
  rcases hty : gsType gs "Transaction_Amount" with _ | ty
  · simp [GBU.prepareField, resolveGristField, mapLookup, GBU.googleToGristMap, hty]
  · simp [GBU.prepareField, resolveGristField, mapLookup, GBU.googleToGristMap, hty]
    split_ifs <;>
      simp_all [GBU.normalize_date, normalize_amount, PyVal.truthy]

/-- C9: `normalize_amount` maps every falsy input — including the
numbers 0 and 0.0, not only blank or missing text — to `None`; hence
a record pair whose `Transaction Amount` is the number 0 on **either
side** (the source record's `Transaction Amount` or the destination
record's `Transaction_Amount`) can never be declared a duplicate by
either detector, and a zero amount field is dropped by both record
mappers. -/
theorem claim_C9 (v : PyVal) (f g : Rec) (gs : GStruct) (bank : PyVal)
    (hv : v.truthy = false)
    (hf : recGet f "Transaction Amount" = PyVal.vInt 0 ∨
      recGet g "Transaction_Amount" = PyVal.vInt 0) :
    normalize_amount v = none ∧
    normalize_amount (PyVal.vInt 0) = none ∧
    normalize_amount (PyVal.vFloat 0) = none ∧
    GBU.record_matches f g = false ∧
    CGR.record_matches f g = false ∧
    UTG.prepareField gs bank "Transaction Amount" (PyVal.vInt 0) = none ∧
    GBU.prepareField gs bank "Transaction Amount" (PyVal.vInt 0) = none := by
  have e0 : normalize_amount (PyVal.vInt 0) = none := by decide
  refine ⟨?_, e0, by decide, ?_, ?_,
    prepareField_zero_amountUTG gs bank, prepareField_zero_amountGBU gs bank⟩
  · simp [normalize_amount, hv]
  · rcases hf with hf | hf
    · simp [GBU.record_matches, hf, e0]
    · simp [GBU.record_matches, hf, e0]
  · rcases hf with hf | hf
    · simp [CGR.record_matches, hf, e0]
    · simp [CGR.record_matches, hf, e0]

theorem claim_C9_witness :
    GBU.record_matches [("Transaction Amount", PyVal.vInt 0)] [] = false ∧
    CGR.record_matches [] [("Transaction_Amount", PyVal.vInt 0)] = false :=
  ⟨(claim_C9 PyVal.vNone [("Transaction Amount", PyVal.vInt 0)] [] [] PyVal.vNone
      (by decide) (Or.inl (by decide))).2.2.2.1,
   (claim_C9 PyVal.vNone [] [("Transaction_Amount", PyVal.vInt 0)] [] PyVal.vNone
      (by decide) (Or.inr (by decide))).2.2.2.2.1⟩

theorem prepareField_no_noneUTG {gs : GStruct} {bank : PyVal} {fn : String}
    {v : PyVal} {k : String} {w : PyVal}
    (h : UTG.prepareField gs bank fn v = some (k, w)) : w ≠ PyVal.vNone := by
  unfold UTG.prepareField at h
  repeat' split at h
  all_goals simp_all [Option.map_eq_some']
  all_goals try (obtain ⟨x, hx, h2⟩ := h)
  all_goals first
    | (obtain ⟨y, hy, rfl⟩ := hx; simp)
    | (rw [← h2.2]; simp)
    | simp

theorem prepareField_no_noneGBU {gs : GStruct} {bank : PyVal} {fn : String}
    {v : PyVal} {k : String} {w : PyVal}
    (h : GBU.prepareField gs bank fn v = some (k, w)) : w ≠ PyVal.vNone := by
  unfold GBU.prepareField at h
  repeat' split at h
  all_goals simp_all [Option.map_eq_some']
  all_goals try (obtain ⟨x, hx, h2⟩ := h)
  all_goals first
    | (obtain ⟨y, hy, rfl⟩ := hx; simp)
    | (rw [← h2.2]; simp)
    | simp

/-- C6: neither `prepare_grist_record` copy ever emits an absent
value — every field that fails to resolve to a destination column is
dropped, and every field whose normalized value is absent is omitted,
so each value in the mapped record is non-None. -/
theorem claim_C6 (r : Rec) (gs : GStruct) :
    (∀ p ∈ UTG.prepare_grist_record r gs, p.2 ≠ PyVal.vNone) ∧
    (∀ p ∈ GBU.prepare_grist_record r gs, p.2 ≠ PyVal.vNone) := by
  constructor
  · intro p hp
    obtain ⟨a, _, ha⟩ := List.mem_filterMap.mp hp
    exact prepareField_no_noneUTG (k := p.1) (w := p.2) (by simpa using ha)
  · intro p hp
    obtain ⟨a, _, ha⟩ := List.mem_filterMap.mp hp
    exact prepareField_no_noneGBU (k := p.1) (w := p.2) (by simpa using ha)

theorem claim_C6_witness :
    (("Transaction_Description", PyVal.vStr "X") : String × PyVal).2 ≠ PyVal.vNone :=
  (claim_C6 [("Transaction Description", PyVal.vStr "X")]
    [⟨"Transaction_Description", "Text", "Transaction Description"⟩]).1
    ("Transaction_Description", PyVal.vStr "X") (by decide)

/-- `upload_records_to_grist` has three observable outcomes: trivial
success on no input, failure without a bulk call, or one bulk call
whose outcome is the environment's. -/
theorem UTG.uploadRecords_cases (env : UploadEnv) :
    (UTG.uploadRecords env = (true, []) ∧ env.csvRecords.isEmpty = true) ∨
    (UTG.uploadRecords env = (false, []) ∧ env.csvRecords.isEmpty = false) ∨
    (UTG.uploadRecords env = (env.bulkOk, [UAction.bulkInsert]) ∧
      env.csvRecords.isEmpty = false) := by
  unfold UTG.uploadRecords UTG.createBulk
  split_ifs <;> simp_all <;> tauto

/-- C5: the upload stage archives the staged file only after the bulk
insert has been confirmed: a failed bulk call means no archive; a
non-empty batch is archived only when the bulk call was made and
succeeded; an empty batch is archived with no bulk call at all; and
the archive move, when present, is the last action of the run. -/
theorem claim_C5 (env : UploadEnv) :
    (UAction.bulkInsert ∈ (UTG.mainRun env).2 → env.bulkOk = false →
      UAction.archiveMove ∉ (UTG.mainRun env).2) ∧
    (env.csvRecords.isEmpty = false → UAction.archiveMove ∈ (UTG.mainRun env).2 →
      env.bulkOk = true ∧ UAction.bulkInsert ∈ (UTG.mainRun env).2) ∧
    (env.csvRecords.isEmpty = true →
      UAction.bulkInsert ∉ (UTG.mainRun env).2 ∧
      (env.connOk = true → env.fileExists = true → env.renameOk = true →
        (UTG.mainRun env).2 = [UAction.archiveMove])) ∧
    (UAction.archiveMove ∈ (UTG.mainRun env).2 →
      (UTG.mainRun env).2.getLast? = some UAction.archiveMove) := by
  rcases UTG.uploadRecords_cases env with ⟨hu, he⟩ | ⟨hu, he⟩ | ⟨hu, he⟩ <;>
    obtain ⟨co, recs, gst, bo, fe, ro⟩ := env <;>
    cases co <;> cases fe <;> cases ro <;> cases bo <;>
    simp_all [UTG.mainRun, UTG.archiveStep]

theorem claim_C5_witness :
    UploadEnv.bulkOk ⟨true, [[("Transaction Description", PyVal.vStr "X")]],
      [⟨"Transaction_Description", "Text", "Transaction Description"⟩],
      true, true, true⟩ = true ∧
    UAction.bulkInsert ∈ (UTG.mainRun ⟨true,
      [[("Transaction Description", PyVal.vStr "X")]],
      [⟨"Transaction_Description", "Text", "Transaction Description"⟩],
      true, true, true⟩).2 :=
  (claim_C5 ⟨true, [[("Transaction Description", PyVal.vStr "X")]],
      [⟨"Transaction_Description", "Text", "Transaction Description"⟩],
      true, true, true⟩).2.1 (by decide) (by decide)

/-- C7 counterexample: with `archive/110725.txt` and a previous
same-second archive `archive/110725_20250711_120000.txt` both
present, a further archive of `110725.txt` at the same formatted
timestamp chooses a destination that **already exists** — `os.rename`
then replaces that archive entry silently.  (The uploadToGrist
variant likewise derives its destination from the timestamp alone, so
two same-second archives of one base name collide.) -/
theorem claim_C7_counterexample :
    CGR.archivePath ["archive/110725.txt", "archive/110725_20250711_120000.txt"]
      "archive" "110725.txt" "20250711_120000" =
      "archive/110725_20250711_120000.txt" ∧
    "archive/110725_20250711_120000.txt" ∈
      ["archive/110725.txt", "archive/110725_20250711_120000.txt"] := by
  constructor
  · decide
  · decide

/-- C7 as amended: archive destinations are distinct whenever the
formatted wall-clock timestamps of the two operations differ — for
the uploadToGrist naming always, and for the createGristRecords
naming whenever the un-suffixed entry exists (the counterexample's
scenario); two operations inside the same second can still collide
and overwrite. -/
theorem claim_C7 (e1 e2 : List String) (dir base ts1 ts2 : String)
    (hts : ts1 ≠ ts2)
    (h1 : e1.contains (dir ++ "/" ++ base) = true)
    (h2 : e2.contains (dir ++ "/" ++ base) = true) :
    UTG.archivePath dir base ts1 ≠ UTG.archivePath dir base ts2 ∧
    CGR.archivePath e1 dir base ts1 ≠ CGR.archivePath e2 dir base ts2 := by
  constructor
  · intro heq
    apply hts
    apply String.ext
    have hd := congrArg String.data heq
    unfold UTG.archivePath at hd
    simp only [String.data_append, List.append_assoc] at hd
    exact List.append_cancel_right
      (List.append_cancel_left (List.append_cancel_left (List.append_cancel_left
        (List.append_cancel_left (List.append_cancel_left hd)))))
  · intro heq
    apply hts
    apply String.ext
    unfold CGR.archivePath at heq
    rw [if_pos h1, if_pos h2] at heq
    have hd := congrArg String.data heq
    simp only [String.data_append, List.append_assoc] at hd
    exact List.append_cancel_right
      (List.append_cancel_left (List.append_cancel_left hd))

theorem claim_C7_witness :
    UTG.archivePath "archive" "110725.csv" "20250711_120000" ≠
      UTG.archivePath "archive" "110725.csv" "20250711_120001" :=
  (claim_C7 ["archive/110725.csv"] ["archive/110725.csv"] "archive" "110725.csv"
    "20250711_120000" "20250711_120001" (by decide) (by decide) (by decide)).1

/-- C8 counterexample: under a non-ICICI hint the round trip fails —
`"02/07/2025 10:00:00"` normalizes (day-first) to July 2, 2025
10:00:00; the pipeline's canonical output format renders that instant
month-first as `"07/02/2025 10:00:00"`; re-normalizing this text
under the same hint yields February 7, a **different** instant. -/
theorem claim_C8_counterexample :
    CGR.normalize_date (PyVal.vStr "02/07/2025 10:00:00") (PyVal.vStr "HDFC") =
      some ⟨2025, 7, 2, 10, 0, 0⟩ ∧
    CGR.format_datetime_for_output ⟨2025, 7, 2, 10, 0, 0⟩ = "07/02/2025 10:00:00" ∧
    CGR.normalize_date (PyVal.vStr "07/02/2025 10:00:00") (PyVal.vStr "HDFC") =
      some ⟨2025, 2, 7, 10, 0, 0⟩ ∧
    (⟨2025, 2, 7, 10, 0, 0⟩ : DT) ≠ ⟨2025, 7, 2, 10, 0, 0⟩ := by
  refine ⟨by decide, by decide, by decide, by decide⟩

/-- C8 as amended: `normalizeDate` is deterministic (it is a pure
function of the text and hint — definitional in this embedding), and
the round trip through the canonical output format holds under the
**ICICI** hint: formatting any valid instant with
`_format_datetime_for_output` and re-normalizing under ICICI yields
the same instant.  Under other hints the month-first output re-parses
day-first and the instant can change (see the counterexample). -/
theorem claim_C8 (t : DT) (h : ValidDT t) :
    CGR.normalize_date (PyVal.vStr (CGR.format_datetime_for_output t))
      (PyVal.vStr "ICICI") = some t := by
  have e : CGR.normalize_date (PyVal.vStr (CGR.format_datetime_for_output t))
      (PyVal.vStr "ICICI") =
      CGR.parse_date_string (CGR.format_datetime_for_output t) (PyVal.vStr "ICICI") := by
    have hne : (PyVal.vStr (CGR.format_datetime_for_output t)).truthy = true := by
      simp only [PyVal.truthy, CGR.format_datetime_for_output]
      rw [fmtMDYHMS_shape]
      rfl
    unfold CGR.normalize_date
    rw [hne]
    rfl
  rw [e]
  exact CGR.parse_roundtrip_icici t h

theorem claim_C8_witness :
    CGR.normalize_date
      (PyVal.vStr (CGR.format_datetime_for_output ⟨2025, 7, 2, 10, 0, 0⟩))
      (PyVal.vStr "ICICI") = some ⟨2025, 7, 2, 10, 0, 0⟩ :=
  claim_C8 ⟨2025, 7, 2, 10, 0, 0⟩ (by decide)
